import Mathlib

/-!
Verification of the arke-export-orchestrator task lifecycle subsystem.

Shallow embedding of the TypeScript sources:
- `src/index.ts`: the worker handlers `handleExportRequest`, `handleCallback`,
  `handleDownload` over the KV task store (`env.TASK_STORE.get/put`).
- `src/task-store.ts`: the Durable Object `TaskStore` (`createTask`, `getTask`,
  `completeTask`) over a SQLite `tasks` table.
- `src/fly.ts`: `spawnExportMachine` (modelled by its observable outcome).
- `src/utils.ts`: `errorResponse` / `jsonResponse`.

Conventions of the embedding:
- JavaScript `undefined` / SQL `NULL` become `Option`.
- JavaScript truthiness on optional strings (`x || null`, `if (!x)`) is the
  test `s ≠ ""`; on optional numbers it is `n ≠ 0` (0 is falsy).
- JSON serialisation round-trips (`JSON.parse(JSON.stringify x)`) are the
  identity on the embedded values, so serialised bags (options, metrics) are
  carried as their structured values.
- Timestamps (`Date.now()`) are explicit `now : Int` parameters.
- The asynchronous Fly.io spawn call is modelled by the observable result the
  `fetch` produces (HTTP ok with ids, HTTP failure, or a thrown network error).
-/

/-- `TaskStatus` from src/types.ts: 'processing' | 'success' | 'error'. -/
inductive TaskStatus where
  | processing
  | success
  | error
deriving DecidableEq, Repr

/-- Render a status the way the TypeScript string union spells it. -/
def statusToString : TaskStatus → String
  | TaskStatus.processing => "processing"
  | TaskStatus.success => "success"
  | TaskStatus.error => "error"

/-- `ExportOptions` from src/types.ts (all fields optional). -/
structure ExportOptions where
  recursive : Option Bool
  maxDepth : Option Int
  includeOcr : Option Bool
  maxTextLength : Option Int
  entitySource : Option String
  includeComponents : Option Bool
  parallelBatchSize : Option Int
deriving DecidableEq, Repr

/-- The empty options bag, i.e. the literal `\x7b\x7d` used for `options || \x7b\x7d`. -/
def emptyOptions : ExportOptions :=
  { recursive := none, maxDepth := none, includeOcr := none, maxTextLength := none,
    entitySource := none, includeComponents := none, parallelBatchSize := none }

/-- `ExportMetrics` from src/types.ts. -/
structure ExportMetrics where
  total_time_ms : Int
  entities_exported : Int
  entities_failed : Int
  entities_incomplete : Option Int
  peak_memory_mb : Int
deriving DecidableEq, Repr

/-- `TaskState` from src/types.ts, the record stored per task id. -/
structure TaskState where
  task_id : String
  batch_id : String
  status : TaskStatus
  pi : String
  options : ExportOptions
  machine_id : Option String
  instance_id : Option String
  output_r2_key : Option String
  output_file_name : Option String
  output_file_size : Option Int
  metrics : Option ExportMetrics
  error : Option String
  created_at : Int
  completed_at : Option Int
deriving DecidableEq, Repr

/-- The status carried by a callback payload: 'success' | 'error'. -/
inductive CbStatus where
  | success
  | error
deriving DecidableEq, Repr

/-- Inclusion of the callback status union into the task status union
(`taskState.status = callback.status` in src/index.ts is between these). -/
def cbStatus : CbStatus → TaskStatus
  | CbStatus.success => TaskStatus.success
  | CbStatus.error => TaskStatus.error

/-- `CallbackPayload` from src/types.ts. -/
structure CallbackPayload where
  task_id : String
  batch_id : String
  status : CbStatus
  output_r2_key : Option String
  output_file_name : Option String
  output_file_size : Option Int
  metrics : Option ExportMetrics
  error : Option String
deriving DecidableEq, Repr

/-- Bodies of the HTTP responses the embedded handlers can build. -/
inductive RespBody where
  /-- `errorResponse` body: the JSON object with one `error` field. -/
  | errJson (message : String)
  /-- `jsonResponse(\x7b received: true \x7d)` from the callback handler. -/
  | receivedJson
  /-- `ExportStartResponse` from the export handler. -/
  | exportStart (task_id : String)
  /-- The streamed R2 object body from the download handler. -/
  | stream (content : String)
deriving DecidableEq, Repr

/-- The observable part of a worker `Response`. -/
structure HttpResponse where
  status : Nat
  body : RespBody
  contentLength : Option String
  contentDisposition : Option String
deriving DecidableEq, Repr

/-- `errorResponse(message, status)` from src/utils.ts. -/
def errorResponse (message : String) (status : Nat) : HttpResponse :=
  { status := status, body := RespBody.errJson message,
    contentLength := none, contentDisposition := none }

/-- The KV task store: task id to JSON-serialised `TaskState`
(`env.TASK_STORE` in src/index.ts). -/
abbrev Store := List (String × TaskState)

/-- `env.TASK_STORE.get(taskId)` followed by `JSON.parse`. -/
def kvGet (store : Store) (taskId : String) : Option TaskState :=
  match store.find? (fun e => e.1 = taskId) with
  | none => none
  | some e => some e.2

/-- `env.TASK_STORE.put(taskId, JSON.stringify(taskState))`: replace any
existing value under the key. -/
def kvPut (store : Store) (taskId : String) (taskState : TaskState) : Store :=
  (taskId, taskState) :: store.filter (fun e => e.1 ≠ taskId)

/-- The R2 bucket, key to object body (`env.R2_BUCKET`). -/
abbrev R2Bucket := List (String × String)

/-- `env.R2_BUCKET.get(key)`. -/
def r2Get (bucket : R2Bucket) (key : String) : Option String :=
  match bucket.find? (fun e => e.1 = key) with
  | none => none
  | some e => some e.2

/-- The observable outcome of the `fetch` inside `spawnExportMachine`
(src/fly.ts): an OK response carrying the machine ids, a non-OK response
with its status and error text, or a thrown network error. -/
inductive FlyApiResult where
  | httpOk (machineId : String) (instanceId : String)
  | httpErr (status : Nat) (errText : String)
  | netErr (message : String)
deriving DecidableEq, Repr

/-- `spawnExportMachine` from src/fly.ts, lines 83-96: throws when the
response is not OK, otherwise returns the machine and instance ids. -/
def spawnExportMachine (res : FlyApiResult) : Except String (String × String) :=
  match res with
  | FlyApiResult.netErr message => Except.error message
  | FlyApiResult.httpErr status errText =>
      Except.error ("Failed to spawn Fly.io machine: " ++ toString status ++ " " ++ errText)
  | FlyApiResult.httpOk machineId instanceId => Except.ok (machineId, instanceId)

/-- `ExportRequest` from src/types.ts. -/
structure ExportRequest where
  pi : String
  options : Option ExportOptions
deriving DecidableEq, Repr

/-- `handleExportRequest` from src/index.ts, lines 99-159: validate `pi`,
spawn the Fly machine, and only on a successful spawn store the initial
`processing` record and answer with the task id.  A thrown spawn error is
caught and turned into `errorResponse(error.message || ..., 500)`. -/
def handleExportRequest (req : ExportRequest) (fly : FlyApiResult) (taskId : String)
    (now : Int) (store : Store) : HttpResponse × Store :=
  if req.pi = "" then
    (errorResponse "Missing required field: pi" 400, store)
  else
    match spawnExportMachine fly with
    | Except.error message =>
        (errorResponse (if message = "" then "Failed to start export job" else message) 500,
         store)
    | Except.ok (machineId, instanceId) =>
        let taskState : TaskState :=
          { task_id := taskId, batch_id := "single", status := TaskStatus.processing,
            pi := req.pi, options := req.options.getD emptyOptions,
            machine_id := some machineId, instance_id := some instanceId,
            output_r2_key := none, output_file_name := none, output_file_size := none,
            metrics := none, error := none,
            created_at := now, completed_at := none }
        ({ status := 200, body := RespBody.exportStart taskId,
           contentLength := none, contentDisposition := none },
         kvPut store taskId taskState)

/-- The in-place update `handleCallback` performs on the fetched record
(src/index.ts, lines 224-237): status and completed_at always, then the
result fields on a success payload or the error field on an error payload. -/
def applyCallback (taskState : TaskState) (callback : CallbackPayload) (now : Int) : TaskState :=
  let t := { taskState with status := cbStatus callback.status, completed_at := some now }
  match callback.status with
  | CbStatus.success =>
      { t with output_r2_key := callback.output_r2_key,
               output_file_name := callback.output_file_name,
               output_file_size := callback.output_file_size,
               metrics := callback.metrics }
  | CbStatus.error =>
      { t with error := callback.error }

/-- `handleCallback` from src/index.ts, lines 203-249: look the task up by the
id from the URL path, 404 when absent, otherwise apply the callback payload to
the record unconditionally and acknowledge with `received: true`. -/
def handleCallback (taskId : String) (callback : CallbackPayload) (now : Int)
    (store : Store) : HttpResponse × Store :=
  match kvGet store taskId with
  | none => (errorResponse "Task not found" 404, store)
  | some taskState =>
      ({ status := 200, body := RespBody.receivedJson,
         contentLength := none, contentDisposition := none },
       kvPut store taskId (applyCallback taskState callback now))

/-- Truthiness of an optional string (`if (!taskState.output_r2_key)`). -/
def strOptTruthy : Option String → Bool
  | none => false
  | some s => if s = "" then false else true

/-- The Content-Length header value: `taskState.output_file_size?.toString() || ''`. -/
def sizeHeader : Option Int → String
  | none => ""
  | some n => toString n

/-- How a JavaScript template literal renders an optional string
(`undefined` prints as the word). -/
def interpOptStr : Option String → String
  | none => "undefined"
  | some s => s

/-- `handleDownload` from src/index.ts, lines 256-302: 404 on an unknown id,
400 naming the status when not `success`, 500 when no R2 key was recorded,
404 when the object is absent from the bucket, otherwise stream the object
with Content-Length taken from the recorded file size. -/
def handleDownload (taskId : String) (store : Store) (bucket : R2Bucket) : HttpResponse :=
  match kvGet store taskId with
  | none => errorResponse "Task not found" 404
  | some taskState =>
      if taskState.status ≠ TaskStatus.success then
        errorResponse ("Export not ready or failed. Status: " ++ statusToString taskState.status) 400
      else if strOptTruthy taskState.output_r2_key = false then
        errorResponse "Export file not available" 500
      else
        match r2Get bucket (taskState.output_r2_key.getD "") with
        | none => errorResponse "Export file not found in storage" 404
        | some obj =>
            { status := 200, body := RespBody.stream obj,
              contentLength := some (sizeHeader taskState.output_file_size),
              contentDisposition :=
                some ("attachment; filename=\"" ++ interpOptStr taskState.output_file_name ++ "\"") }

/-! ## Durable Object TaskStore (src/task-store.ts) -/

/-- One row of the SQLite `tasks` table created by `initializeSchema`
(src/task-store.ts, lines 25-44).  Nullable columns are `Option`. -/
structure TaskRow where
  task_id : String
  batch_id : String
  status : TaskStatus
  pi : String
  options : ExportOptions
  machine_id : Option String
  instance_id : Option String
  output_r2_key : Option String
  output_file_name : Option String
  output_file_size : Option Int
  metrics : Option ExportMetrics
  error : Option String
  created_at : Int
  completed_at : Option Int
deriving DecidableEq, Repr

/-- The `tasks` table; `task_id` is the primary key, which `createTask`
enforces. -/
abbrev TaskTable := List TaskRow

/-- The write-side coercion `x || null` on an optional string:
the empty string is falsy and becomes NULL.  The same function is the
read-side `row.x || undefined` of `getTask`. -/
def orNullStr : Option String → Option String
  | none => none
  | some s => if s = "" then none else some s

/-- The coercion `n || null` (write side) and `row.n || undefined`
(read side) on an optional number: 0 is falsy and becomes NULL/undefined. -/
def orNullInt : Option Int → Option Int
  | none => none
  | some n => if n = 0 then none else some n

/-- The row the INSERT of `createTask` writes: identification and request
columns from the passed state (falsy machine ids stored as NULL, matching
`taskState.machine_id || null`), output columns NULL. -/
def createdRow (taskState : TaskState) : TaskRow :=
  { task_id := taskState.task_id,
    batch_id := taskState.batch_id,
    status := taskState.status,
    pi := taskState.pi,
    options := taskState.options,
    machine_id := orNullStr taskState.machine_id,
    instance_id := orNullStr taskState.instance_id,
    output_r2_key := none, output_file_name := none, output_file_size := none,
    metrics := none, error := none,
    created_at := taskState.created_at, completed_at := none }

/-- `createTask` from src/task-store.ts, lines 97-116: an INSERT into a table
whose `task_id` column is PRIMARY KEY.  A duplicate id violates the unique
constraint, the statement throws, and the table is unchanged; otherwise the
row is inserted with the output columns NULL. -/
def createTask (table : TaskTable) (taskState : TaskState) : Except String TaskTable :=
  if table.any (fun row => row.task_id = taskState.task_id) then
    Except.error "UNIQUE constraint failed: tasks.task_id"
  else
    Except.ok (table ++ [createdRow taskState])

/-- The `TaskState` that `getTask` rebuilds from a SQLite row, coercing every
optional column with `|| undefined` (and
`row.metrics ? JSON.parse(row.metrics) : undefined`, where a present
serialised object is always truthy). -/
def rowToTaskState (row : TaskRow) : TaskState :=
  { task_id := row.task_id,
    batch_id := row.batch_id,
    status := row.status,
    pi := row.pi,
    options := row.options,
    machine_id := orNullStr row.machine_id,
    instance_id := orNullStr row.instance_id,
    output_r2_key := orNullStr row.output_r2_key,
    output_file_name := orNullStr row.output_file_name,
    output_file_size := orNullInt row.output_file_size,
    metrics := row.metrics,
    error := orNullStr row.error,
    created_at := row.created_at,
    completed_at := orNullInt row.completed_at }

/-- `getTask` from src/task-store.ts, lines 121-151: SELECT the row by id and
rebuild a `TaskState` from it. -/
def getTask (table : TaskTable) (taskId : String) : Option TaskState :=
  match table.find? (fun row => row.task_id = taskId) with
  | none => none
  | some row => some (rowToTaskState row)

/-- The per-row effect of the UPDATE statements in `completeTask`
(src/task-store.ts, lines 156-194): on a success payload the status,
completed_at and the four output columns are set (falsy payload fields
stored as NULL); on an error payload the status, completed_at and error
columns are set. -/
def completeRow (row : TaskRow) (callback : CallbackPayload) (now : Int) : TaskRow :=
  match callback.status with
  | CbStatus.success =>
      { row with
        status := TaskStatus.success, completed_at := some now,
        output_r2_key := orNullStr callback.output_r2_key,
        output_file_name := orNullStr callback.output_file_name,
        output_file_size := orNullInt callback.output_file_size,
        metrics := callback.metrics }
  | CbStatus.error =>
      { row with
        status := TaskStatus.error, completed_at := some now,
        error := orNullStr callback.error }

/-- `completeTask` from src/task-store.ts, lines 156-194: UPDATE ... WHERE
`task_id = ?`, applied to every matching row (at most one, by the primary
key), with no check of the row's current status. -/
def completeTask (table : TaskTable) (taskId : String) (callback : CallbackPayload)
    (now : Int) : TaskTable :=
  table.map (fun row => if row.task_id = taskId then completeRow row callback now else row)

/-! ## Invariant predicates (for the data-model claims) -/

/-- All four result fields of a record are populated
(the artifact locator, display name, byte size and metrics bag). -/
def resultPopulated (t : TaskState) : Prop :=
  t.output_r2_key.isSome = true ∧ t.output_file_name.isSome = true ∧
  t.output_file_size.isSome = true ∧ t.metrics.isSome = true

/-- The spec's field/status coupling: result fields populated iff `success`,
error message populated iff `error`. -/
def statusFieldsInv (t : TaskState) : Prop :=
  (t.status = TaskStatus.success ↔ resultPopulated t) ∧
  (t.status = TaskStatus.error ↔ t.error.isSome = true)

/-- A success payload that carries all four result fields. -/
def successPayloadFull (callback : CallbackPayload) : Prop :=
  callback.output_r2_key.isSome = true ∧ callback.output_file_name.isSome = true ∧
  callback.output_file_size.isSome = true ∧ callback.metrics.isSome = true

/-! ## Concrete fixtures used by counterexamples and witnesses -/

/-- A concrete metrics bag. -/
def metricsX : ExportMetrics :=
  { total_time_ms := 5000, entities_exported := 3, entities_failed := 0,
    entities_incomplete := none, peak_memory_mb := 128 }

/-- A freshly created record for task "t1", as `handleExportRequest` stores it. -/
def taskProcessingX : TaskState :=
  { task_id := "t1", batch_id := "single", status := TaskStatus.processing,
    pi := "X1", options := emptyOptions,
    machine_id := some "m1", instance_id := some "i1",
    output_r2_key := none, output_file_name := none, output_file_size := none,
    metrics := none, error := none, created_at := 50, completed_at := none }

/-- A record for task "t1" after a successful completion at time 100. -/
def taskSuccessX : TaskState :=
  { taskProcessingX with
    status := TaskStatus.success,
    output_r2_key := some "exports/t1/X1-collection.xml",
    output_file_name := some "X1-collection.xml",
    output_file_size := some 1024,
    metrics := some metricsX,
    completed_at := some 100 }

/-- A success record whose recorded artifact locator is the empty string. -/
def taskSuccessEmptyKeyX : TaskState :=
  { taskSuccessX with output_r2_key := some "" }

/-- KV store holding the processing record. -/
def storeProcessingX : Store := [("t1", taskProcessingX)]

/-- KV store holding the success record. -/
def storeSuccessX : Store := [("t1", taskSuccessX)]

/-- KV store holding the success record with the empty-string locator. -/
def storeSuccessEmptyKeyX : Store := [("t1", taskSuccessEmptyKeyX)]

/-- A success callback payload for task "t1". -/
def cbSuccessX : CallbackPayload :=
  { task_id := "t1", batch_id := "single", status := CbStatus.success,
    output_r2_key := some "exports/t1/X1-collection.xml",
    output_file_name := some "X1-collection.xml",
    output_file_size := some 1024,
    metrics := some metricsX, error := none }

/-- An error callback payload for task "t1". -/
def cbErrorX : CallbackPayload :=
  { task_id := "t1", batch_id := "single", status := CbStatus.error,
    output_r2_key := none, output_file_name := none, output_file_size := none,
    metrics := none, error := some "upstream 404" }

/-- An R2 bucket holding the artifact the success record points at. -/
def bucketX : R2Bucket := [("exports/t1/X1-collection.xml", "ARTIFACT-BYTES")]

/-- A concrete export request. -/
def reqX : ExportRequest := { pi := "X1", options := none }

/-- A failed Fly spawn: the Machines API answered 422. -/
def flyFailX : FlyApiResult := FlyApiResult.httpErr 422 "no capacity"

/-- The success payload with a zero byte size. -/
def cbZeroSizeX : CallbackPayload := { cbSuccessX with output_file_size := some 0 }

/-- The error payload with an empty-string message. -/
def cbEmptyErrX : CallbackPayload := { cbErrorX with error := some "" }

/-- The tasks table right after the first `createTask` of the fixture record. -/
def tableOneX : TaskTable := [createdRow taskProcessingX]

/-! ## Basic lemmas about the stores -/

theorem completeRow_task_id (row : TaskRow) (callback : CallbackPayload) (now : Int) :
    (completeRow row callback now).task_id = row.task_id := by
  cases h : callback.status <;> simp [completeRow, h]

theorem find?_completeTask (table : TaskTable) (taskId : String)
    (callback : CallbackPayload) (now : Int) :
    (completeTask table taskId callback now).find? (fun row => row.task_id = taskId) =
      ((table.find? (fun row => row.task_id = taskId)).map
        (fun row => completeRow row callback now)) := by
  induction table with
  | nil => rfl
  | cons r t ih =>
      by_cases hr : r.task_id = taskId
      · simp [completeTask, List.find?, hr, completeRow_task_id]
      · simp only [completeTask, List.map] at ih ⊢
        simp [List.find?, hr, ih]

theorem kvGet_kvPut_same (store : Store) (taskId : String) (taskState : TaskState) :
    kvGet (kvPut store taskId taskState) taskId = some taskState := by
  simp [kvGet, kvPut, List.find?]

/-! ## Claim theorems -/

/-- C1 (counterexample): a record already in the terminal state `success`
does not stay unchanged under a later callback with a different outcome:
the error callback flips the status to `error` and writes the error
message.  Terminal states are not final in the code. -/
theorem callback_overwrites_terminal_state :
    taskSuccessX.status = TaskStatus.success ∧
    kvGet storeSuccessX "t1" = some taskSuccessX ∧
    (kvGet (handleCallback "t1" cbErrorX 200 storeSuccessX).2 "t1").map TaskState.status
      = some TaskStatus.error ∧
    (kvGet (handleCallback "t1" cbErrorX 200 storeSuccessX).2 "t1").map TaskState.error
      = some (some "upstream 404") := by
  decide

/-- C1 (amended): `handleCallback` never checks the current status; for a
record in a terminal state (any status other than `processing`) a subsequent
completion callback is applied unconditionally, so the stored record becomes
`applyCallback` of the old one: its status is the callback's outcome and its
completion time the delivery time (last-write-wins). -/
theorem callback_last_write_wins (store : Store) (taskId : String) (t : TaskState)
    (callback : CallbackPayload) (now : Int)
    (hget : kvGet store taskId = some t) (hterm : t.status ≠ TaskStatus.processing) :
    kvGet (handleCallback taskId callback now store).2 taskId
      = some (applyCallback t callback now) ∧
    (applyCallback t callback now).status = cbStatus callback.status ∧
    (applyCallback t callback now).completed_at = some now := by
  refine ⟨?_, ?_, ?_⟩
  · simp [handleCallback, hget, kvGet_kvPut_same]
  · cases h : callback.status <;> simp [applyCallback, h, cbStatus]
  · cases h : callback.status <;> simp [applyCallback, h]

/-- Witness for C1 (amended) at the success record and the error callback. -/
theorem callback_last_write_wins_witness :
    (kvGet storeSuccessX "t1" = some taskSuccessX ∧
     taskSuccessX.status ≠ TaskStatus.processing) ∧
    (kvGet (handleCallback "t1" cbErrorX 200 storeSuccessX).2 "t1"
       = some (applyCallback taskSuccessX cbErrorX 200) ∧
     (applyCallback taskSuccessX cbErrorX 200).status = cbStatus cbErrorX.status ∧
     (applyCallback taskSuccessX cbErrorX 200).completed_at = some 200) :=
  ⟨⟨by decide, by decide⟩,
   callback_last_write_wins storeSuccessX "t1" taskSuccessX cbErrorX 200
     (by decide) (by decide)⟩

/-- C5: when the spawn call fails (non-OK Machines API response or thrown
network error), `handleExportRequest` returns the dispatch failure as a 500
response and the task store is returned unchanged: no record is created. -/
theorem spawn_failure_creates_no_record (req : ExportRequest) (fly : FlyApiResult)
    (taskId : String) (now : Int) (store : Store) (message : String)
    (hfail : spawnExportMachine fly = Except.error message) (hpi : req.pi ≠ "") :
    handleExportRequest req fly taskId now store
      = (errorResponse (if message = "" then "Failed to start export job" else message) 500,
         store) := by
  simp [handleExportRequest, hpi, hfail]

/-- Witness for C5 at a 422 spawn rejection over the empty store. -/
theorem spawn_failure_creates_no_record_witness :
    (spawnExportMachine flyFailX
       = Except.error "Failed to spawn Fly.io machine: 422 no capacity" ∧
     reqX.pi ≠ "") ∧
    handleExportRequest reqX flyFailX "t9" 50 []
      = (errorResponse "Failed to spawn Fly.io machine: 422 no capacity" 500, []) :=
  ⟨⟨by rfl, by decide⟩, by
    have h := spawn_failure_creates_no_record reqX flyFailX "t9" 50 []
      "Failed to spawn Fly.io machine: 422 no capacity" (by rfl) (by decide)
    simpa using h⟩

/-- C6: a completion callback whose task id resolves to no record is
answered with the 404 `Task not found` response and the task store is
returned unchanged: nothing is created or modified. -/
theorem callback_unknown_task (taskId : String) (callback : CallbackPayload)
    (now : Int) (store : Store) (h : kvGet store taskId = none) :
    handleCallback taskId callback now store
      = (errorResponse "Task not found" 404, store) := by
  simp [handleCallback, h]

/-- Witness for C6 at an unknown id over the fixture store. -/
theorem callback_unknown_task_witness :
    kvGet storeProcessingX "missing" = none ∧
    handleCallback "missing" cbSuccessX 100 storeProcessingX
      = (errorResponse "Task not found" 404, storeProcessingX) :=
  ⟨by decide, callback_unknown_task "missing" cbSuccessX 100 storeProcessingX (by decide)⟩

/-- C9: `handleCallback` identifies the record solely by the task id from
the URL path and never reads the payload's `task_id` field: two payloads
differing only in that field produce identical responses and identical
task-store states. -/
theorem callback_ignores_payload_task_id (taskId a b : String)
    (callback : CallbackPayload) (now : Int) (store : Store) :
    handleCallback taskId { callback with task_id := a } now store
      = handleCallback taskId { callback with task_id := b } now store := by
  rcases callback with ⟨tid, bid, st, k, n, sz, m, e⟩
  cases hk : kvGet store taskId <;> cases st <;>
    simp [handleCallback, hk, applyCallback]

/-- C2 (counterexample): redelivering the very same success callback at a
later time re-stamps `completed_at`: after the first delivery at time 100 it
is 100, after the identical second delivery at time 200 it is 200. -/
theorem duplicate_callback_restamps_completed_at :
    (kvGet (handleCallback "t1" cbSuccessX 100 storeProcessingX).2 "t1").map
        TaskState.completed_at = some (some 100) ∧
    (kvGet (handleCallback "t1" cbSuccessX 200
        (handleCallback "t1" cbSuccessX 100 storeProcessingX).2).2 "t1").map
        TaskState.completed_at = some (some 200) := by
  decide

/-- C2 (amended): delivering the same success callback twice yields two
`received: true` acknowledgments and one terminal state `success` with the
payload's result fields, but the stored record after the second delivery is
the first record with `completed_at` re-stamped to the second delivery
time. -/
theorem duplicate_success_callback_acknowledged (store : Store) (taskId : String)
    (t : TaskState) (callback : CallbackPayload) (now1 now2 : Int)
    (hget : kvGet store taskId = some t) (hs : callback.status = CbStatus.success) :
    (handleCallback taskId callback now1 store).1
      = { status := 200, body := RespBody.receivedJson,
          contentLength := none, contentDisposition := none } ∧
    (handleCallback taskId callback now2 (handleCallback taskId callback now1 store).2).1
      = { status := 200, body := RespBody.receivedJson,
          contentLength := none, contentDisposition := none } ∧
    kvGet (handleCallback taskId callback now2
        (handleCallback taskId callback now1 store).2).2 taskId
      = some { applyCallback t callback now1 with completed_at := some now2 } ∧
    (applyCallback t callback now1).status = TaskStatus.success := by
  rcases callback with ⟨tid, bid, st, k, n, sz, m, e⟩
  cases hs
  refine ⟨?_, ?_, ?_, ?_⟩ <;>
    simp [handleCallback, hget, kvGet_kvPut_same, applyCallback, cbStatus]

/-- Witness for C2 (amended) at the processing record and the fixture
success callback, delivered at times 100 and 200. -/
theorem duplicate_success_callback_acknowledged_witness :
    (kvGet storeProcessingX "t1" = some taskProcessingX ∧
     cbSuccessX.status = CbStatus.success) ∧
    ((handleCallback "t1" cbSuccessX 100 storeProcessingX).1
       = { status := 200, body := RespBody.receivedJson,
           contentLength := none, contentDisposition := none } ∧
     (handleCallback "t1" cbSuccessX 200
        (handleCallback "t1" cbSuccessX 100 storeProcessingX).2).1
       = { status := 200, body := RespBody.receivedJson,
           contentLength := none, contentDisposition := none } ∧
     kvGet (handleCallback "t1" cbSuccessX 200
        (handleCallback "t1" cbSuccessX 100 storeProcessingX).2).2 "t1"
       = some { applyCallback taskProcessingX cbSuccessX 100 with completed_at := some 200 } ∧
     (applyCallback taskProcessingX cbSuccessX 100).status = TaskStatus.success) :=
  ⟨⟨by decide, by decide⟩,
   duplicate_success_callback_acknowledged storeProcessingX "t1" taskProcessingX
     cbSuccessX 100 200 (by decide) (by decide)⟩

/-- C3 (counterexample): after an error callback followed by a success
callback for the same task, the stored record has status `success` and yet
its error message is still populated: the handler never clears the other
outcome's fields, so the populated-iff coupling fails under such a
sequence. -/
theorem error_field_survives_success :
    (kvGet (handleCallback "t1" cbSuccessX 200
        (handleCallback "t1" cbErrorX 100 storeProcessingX).2).2 "t1").map
        TaskState.status = some TaskStatus.success ∧
    (kvGet (handleCallback "t1" cbSuccessX 200
        (handleCallback "t1" cbErrorX 100 storeProcessingX).2).2 "t1").map
        TaskState.error = some (some "upstream 404") := by
  decide

/-- C3 (amended): the populated-iff coupling holds for the states the
intended lifecycle produces: a freshly created record (status `processing`,
no result fields, no error) satisfies it, and one completion callback
applied to a `processing` record preserves it provided a success payload
carries all four result fields and an error payload carries a message.  (A
second callback with a different outcome can break it, as the
counterexample shows.) -/
theorem status_fields_invariant :
    (∀ req fly taskId now store machineId instanceId t,
        spawnExportMachine fly = Except.ok (machineId, instanceId) →
        req.pi ≠ "" →
        kvGet (handleExportRequest req fly taskId now store).2 taskId = some t →
        t.status = TaskStatus.processing ∧ statusFieldsInv t) ∧
    (∀ t callback now, t.status = TaskStatus.processing → statusFieldsInv t →
        (callback.status = CbStatus.success → successPayloadFull callback →
            statusFieldsInv (applyCallback t callback now)) ∧
        (callback.status = CbStatus.error → callback.error.isSome = true →
            statusFieldsInv (applyCallback t callback now))) := by
  constructor
  · intro req fly taskId now store machineId instanceId t hfly hpi hget
    simp [handleExportRequest, hpi, hfly, kvGet_kvPut_same] at hget
    rw [← hget]
    refine ⟨rfl, ?_⟩
    simp [statusFieldsInv, resultPopulated]
  · intro t callback now hproc hinv
    obtain ⟨hsuc, herr⟩ := hinv
    have hnres : ¬ resultPopulated t := by
      intro hp
      have := hsuc.2 hp
      rw [hproc] at this
      exact absurd this (by simp)
    have hnerr : ¬ t.error.isSome = true := by
      intro hp
      have := herr.2 hp
      rw [hproc] at this
      exact absurd this (by simp)
    constructor
    · intro hcs hfull
      obtain ⟨h1, h2, h3, h4⟩ := hfull
      constructor
      · constructor
        · intro _
          simp [applyCallback, hcs, resultPopulated]
          exact ⟨h1, h2, h3, h4⟩
        · intro _
          simp [applyCallback, hcs, cbStatus]
      · constructor
        · intro hh
          simp [applyCallback, hcs, cbStatus] at hh
        · intro hh
          simp [applyCallback, hcs] at hh
          exact absurd hh hnerr
    · intro hcs hmsg
      constructor
      · constructor
        · intro hh
          simp [applyCallback, hcs, cbStatus] at hh
        · intro hh
          simp [applyCallback, hcs, resultPopulated] at hh
          exact absurd (by simpa [resultPopulated] using hh) hnres
      · constructor
        · intro _
          simpa [applyCallback, hcs] using hmsg
        · intro _
          simp [applyCallback, hcs, cbStatus]

/-- Witness for C3 (amended): the success-callback preservation step at the
fixture processing record and the full fixture success payload. -/
theorem status_fields_invariant_witness :
    (taskProcessingX.status = TaskStatus.processing ∧ statusFieldsInv taskProcessingX ∧
     cbSuccessX.status = CbStatus.success ∧ successPayloadFull cbSuccessX) ∧
    statusFieldsInv (applyCallback taskProcessingX cbSuccessX 100) :=
  ⟨⟨by decide, by unfold statusFieldsInv resultPopulated; decide, by decide,
    by unfold successPayloadFull; decide⟩,
   (status_fields_invariant.2 taskProcessingX cbSuccessX 100 (by decide)
       (by unfold statusFieldsInv resultPopulated; decide)).1
     (by decide) (by unfold successPayloadFull; decide)⟩

/-- C4 (counterexample): a record in status `success` whose recorded locator
has no object in the bucket does not stream: the download answers 404, so
"the download succeeds for every record in success" fails as stated. -/
theorem download_missing_object_not_streaming :
    (kvGet storeSuccessX "t1").map TaskState.status = some TaskStatus.success ∧
    handleDownload "t1" storeSuccessX []
      = errorResponse "Export file not found in storage" 404 ∧
    (handleDownload "t1" storeSuccessX []).status ≠ 200 := by
  decide

/-- C4 (amended): for a record not in `success` the download fails with the
400 NotReady response naming the record's status; for a record in `success`
whose locator is recorded (nonempty) and whose object exists in the bucket,
the download streams the object with the Content-Length header rendered
from the recorded `output_file_size` (the decimal string of the size when
one was recorded). -/
theorem download_gate (store : Store) (taskId : String) (t : TaskState)
    (bucket : R2Bucket) (hget : kvGet store taskId = some t) :
    (t.status ≠ TaskStatus.success →
       handleDownload taskId store bucket
         = errorResponse ("Export not ready or failed. Status: " ++ statusToString t.status)
             400) ∧
    (∀ key obj, t.status = TaskStatus.success → t.output_r2_key = some key → key ≠ "" →
       r2Get bucket key = some obj →
       handleDownload taskId store bucket
         = { status := 200, body := RespBody.stream obj,
             contentLength := some (sizeHeader t.output_file_size),
             contentDisposition := some ("attachment; filename=\""
               ++ interpOptStr t.output_file_name ++ "\"") }) ∧
    (∀ n, t.output_file_size = some n → sizeHeader t.output_file_size = toString n) := by
  refine ⟨?_, ?_, ?_⟩
  · intro hns
    simp [handleDownload, hget, hns]
  · intro key obj hs hk hne hr2
    simp [handleDownload, hget, hs, hk, strOptTruthy, hne, hr2]
  · intro n hn
    simp [sizeHeader, hn]

/-- Witness for C4 (amended): the success record with its artifact present
in the fixture bucket streams with Content-Length "1024". -/
theorem download_gate_witness :
    (kvGet storeSuccessX "t1" = some taskSuccessX ∧
     taskSuccessX.status = TaskStatus.success ∧
     taskSuccessX.output_r2_key = some "exports/t1/X1-collection.xml" ∧
     "exports/t1/X1-collection.xml" ≠ "" ∧
     r2Get bucketX "exports/t1/X1-collection.xml" = some "ARTIFACT-BYTES") ∧
    handleDownload "t1" storeSuccessX bucketX
      = { status := 200, body := RespBody.stream "ARTIFACT-BYTES",
          contentLength := some (sizeHeader taskSuccessX.output_file_size),
          contentDisposition := some ("attachment; filename=\""
            ++ interpOptStr taskSuccessX.output_file_name ++ "\"") } :=
  ⟨⟨by decide, by decide, by decide, by decide, by decide⟩,
   (download_gate storeSuccessX "t1" taskSuccessX bucketX (by decide)).2.1
     "exports/t1/X1-collection.xml" "ARTIFACT-BYTES"
     (by decide) (by decide) (by decide) (by decide)⟩

/-- C7: calling `createTask` a second time with the same task id hits the
PRIMARY KEY constraint and fails (the INSERT throws, so the Durable Object
returns an error and the table is not modified), and the row persisted by
the first create is still the row the first create inserted. -/
theorem createTask_duplicate_fails (table : TaskTable) (ts ts2 : TaskState)
    (table1 : TaskTable) (hid : ts2.task_id = ts.task_id)
    (h1 : createTask table ts = Except.ok table1) :
    createTask table1 ts2 = Except.error "UNIQUE constraint failed: tasks.task_id" ∧
    table1.find? (fun row => row.task_id = ts.task_id) = some (createdRow ts) := by
  unfold createTask at h1
  by_cases hex : table.any (fun row => row.task_id = ts.task_id)
  · simp [hex] at h1
  · simp [hex] at h1
    subst h1
    constructor
    · have hmem : (table ++ [createdRow ts]).any (fun row => row.task_id = ts2.task_id)
          = true := by
        refine List.any_eq_true.mpr ⟨createdRow ts, ?_, ?_⟩
        · simp
        · simp [createdRow, hid]
      simp [createTask, hmem]
    · have hnone : table.find? (fun row => row.task_id = ts.task_id) = none := by
        refine List.find?_eq_none.mpr ?_
        intro x hx hpx
        exact absurd (List.any_eq_true.mpr ⟨x, hx, hpx⟩) hex
      rw [List.find?_append, hnone]
      simp [createdRow]

/-- Witness for C7: creating the fixture record over the empty table, then
creating a second record with the same id. -/
theorem createTask_duplicate_fails_witness :
    (({ taskProcessingX with pi := "Y9" } : TaskState).task_id = taskProcessingX.task_id ∧
     createTask [] taskProcessingX = Except.ok tableOneX) ∧
    (createTask tableOneX { taskProcessingX with pi := "Y9" }
       = Except.error "UNIQUE constraint failed: tasks.task_id" ∧
     tableOneX.find? (fun row => row.task_id = taskProcessingX.task_id)
       = some (createdRow taskProcessingX)) :=
  ⟨⟨by decide, by rfl⟩,
   createTask_duplicate_fails [] taskProcessingX { taskProcessingX with pi := "Y9" }
     tableOneX (by decide) (by rfl)⟩

/-- C8 (counterexample): a success record whose recorded locator is the
empty string has no matching object in the (empty) bucket, yet the download
answers 500 `Export file not available`, not the claimed 404
`Export file not found in storage`: the empty-string locator is falsy and is
caught by the earlier `if (!taskState.output_r2_key)` check. -/
theorem empty_locator_gives_500 :
    taskSuccessEmptyKeyX.status = TaskStatus.success ∧
    taskSuccessEmptyKeyX.output_r2_key = some "" ∧
    r2Get [] "" = none ∧
    handleDownload "t1" storeSuccessEmptyKeyX []
      = errorResponse "Export file not available" 500 ∧
    handleDownload "t1" storeSuccessEmptyKeyX []
      ≠ errorResponse "Export file not found in storage" 404 := by
  decide

/-- C8 (amended): for a success record whose recorded locator is nonempty
and has no matching object in the bucket, the download fails with the 404
`Export file not found in storage` response, which differs from every 400
NotReady response returned for non-success records. -/
theorem storage_inconsistency_distinct (store : Store) (taskId : String)
    (t : TaskState) (bucket : R2Bucket) (key : String)
    (hget : kvGet store taskId = some t) (hst : t.status = TaskStatus.success)
    (hkey : t.output_r2_key = some key) (hne : key ≠ "")
    (hmiss : r2Get bucket key = none) :
    handleDownload taskId store bucket
      = errorResponse "Export file not found in storage" 404 ∧
    ∀ message, errorResponse "Export file not found in storage" 404
      ≠ errorResponse message 400 := by
  constructor
  · simp [handleDownload, hget, hst, hkey, strOptTruthy, hne, hmiss]
  · intro message
    simp [errorResponse]

/-- Witness for C8 (amended) at the success record and the empty bucket. -/
theorem storage_inconsistency_distinct_witness :
    (kvGet storeSuccessX "t1" = some taskSuccessX ∧
     taskSuccessX.status = TaskStatus.success ∧
     taskSuccessX.output_r2_key = some "exports/t1/X1-collection.xml" ∧
     "exports/t1/X1-collection.xml" ≠ "" ∧
     r2Get [] "exports/t1/X1-collection.xml" = none) ∧
    (handleDownload "t1" storeSuccessX []
       = errorResponse "Export file not found in storage" 404 ∧
     ∀ message, errorResponse "Export file not found in storage" 404
       ≠ errorResponse message 400) :=
  ⟨⟨by decide, by decide, by decide, by decide, by decide⟩,
   storage_inconsistency_distinct storeSuccessX "t1" taskSuccessX []
     "exports/t1/X1-collection.xml" (by decide) (by decide) (by decide)
     (by decide) (by decide)⟩

/-- C10: `getTask` does not round-trip falsy completion values: a task
completed with a recorded byte size of 0 is returned with
`output_file_size` absent (`none`, not `some 0`), and one completed with an
empty-string error message is returned with `error` absent, because the
columns travel through the falsy coercions (`|| null` on write in
`completeTask`, `|| undefined` on read in `getTask`). -/
theorem getTask_drops_falsy_values (table : TaskTable) (taskId : String)
    (row : TaskRow) (now : Int)
    (hrow : table.find? (fun r => r.task_id = taskId) = some row) :
    (∀ callback : CallbackPayload, callback.status = CbStatus.success →
       callback.output_file_size = some 0 →
       ∃ t, getTask (completeTask table taskId callback now) taskId = some t ∧
         t.output_file_size = none ∧ t.status = TaskStatus.success) ∧
    (∀ callback : CallbackPayload, callback.status = CbStatus.error →
       callback.error = some "" →
       ∃ t, getTask (completeTask table taskId callback now) taskId = some t ∧
         t.error = none ∧ t.status = TaskStatus.error) := by
  constructor
  · intro callback hcs hsz
    refine ⟨rowToTaskState (completeRow row callback now), ?_, ?_, ?_⟩
    · unfold getTask
      rw [find?_completeTask, hrow]
      rfl
    · simp [rowToTaskState, completeRow, hcs, hsz, orNullInt]
    · simp [rowToTaskState, completeRow, hcs]
  · intro callback hcs hmsg
    refine ⟨rowToTaskState (completeRow row callback now), ?_, ?_, ?_⟩
    · unfold getTask
      rw [find?_completeTask, hrow]
      rfl
    · simp [rowToTaskState, completeRow, hcs, hmsg, orNullStr]
    · simp [rowToTaskState, completeRow, hcs]

/-- Witness for C10: completing the fixture row with a zero byte size and
reading it back gives `none` for `output_file_size`. -/
theorem getTask_drops_falsy_values_witness :
    (tableOneX.find? (fun r => r.task_id = "t1") = some (createdRow taskProcessingX) ∧
     cbZeroSizeX.status = CbStatus.success ∧ cbZeroSizeX.output_file_size = some 0) ∧
    (∃ t, getTask (completeTask tableOneX "t1" cbZeroSizeX 100) "t1" = some t ∧
       t.output_file_size = none ∧ t.status = TaskStatus.success) :=
  ⟨⟨by decide, by decide, by decide⟩,
   (getTask_drops_falsy_values tableOneX "t1" (createdRow taskProcessingX) 100
       (by decide)).1 cbZeroSizeX (by decide) (by decide)⟩
